import Mathlib

/-!
Shallow embedding of the SkyWhisper repository (a Telegram bot reporting
celestial visibility) and proofs about it.

The embedded code is `src/mastra/tools/celestialVisibilityTool.ts` (the
moon-phase thresholds, the best-viewing-time heuristic, the visibility
window, the per-body computation with its try/catch blocks, and the
tool's `execute` with its sort and summary) and the Telegram send step of
`src/mastra/workflows/celestialTelegramWorkflow.ts`.

The external astronomy library (astronomy-engine), the locale time
formatter, `toFixed(1)` number formatting, ISO date formatting and the
HTTP layer are modelled as oracle functions supplied as parameters: the
repository's own logic never inspects their output beyond null-ness and
ordering of millisecond timestamps, which the model keeps exactly.
Numbers are rationals; JS `Date` values carry their epoch milliseconds
(`getTime`) and local hour of day (`getHours`).
-/

namespace SkyWhisper

/-- A JS `Date`: epoch milliseconds (`getTime()`) and local hour 0-23 (`getHours()`). -/
structure JSDate where
  millis : Int
  hour : Nat
  deriving DecidableEq, Repr

/-- Runtime services the tool calls but does not implement: the locale time
formatter used by `formatTime` and JS `Number.prototype.toFixed(1)`. -/
structure Env where
  fmtTime : JSDate → String
  toFixed1 : ℚ → String

/-- `Astronomy.Body` members used by the tool (a TS string enum; `Body[body]`
is the member's own name). -/
inductive Body where
  | Sun | Moon | Mercury | Venus | Mars | Jupiter | Saturn | Uranus | Neptune
  deriving DecidableEq, Repr

/-- `Astronomy.Body[body]`: the enum member's string name. -/
def Body.name : Body → String
  | .Sun => "Sun"
  | .Moon => "Moon"
  | .Mercury => "Mercury"
  | .Venus => "Venus"
  | .Mars => "Mars"
  | .Jupiter => "Jupiter"
  | .Saturn => "Saturn"
  | .Uranus => "Uranus"
  | .Neptune => "Neptune"

/-- Result of `Astronomy.Equator`: right ascension and declination. -/
structure Equatorial where
  ra : ℚ
  dec : ℚ

/-- Result of `Astronomy.Horizon`: altitude and azimuth in degrees. -/
structure Horizontal where
  altitude : ℚ
  azimuth : ℚ

/-- Result of `Astronomy.Illumination`: visual magnitude and phase fraction. -/
structure IllumInfo where
  mag : ℚ
  phase_fraction : ℚ

/-- The astronomy-engine answers for one body at one observer and instant.
`Equator`/`Horizon` are called outside any try/catch, so they are total;
each searched quantity and `Illumination` may throw (`Except.error`), and
`SearchRiseSet` may return null (`none`) without throwing. -/
structure AstroOracle where
  equator : Equatorial
  horizon : ℚ → ℚ → Horizontal
  searchRise : Except Unit (Option JSDate)
  searchSet : Except Unit (Option JSDate)
  searchHourAngle : Except Unit (Option JSDate)
  illum : Except Unit IllumInfo

/-- The record built per body (`CelestialBodyInfo` in the source). -/
structure CelestialBodyInfo where
  name : String
  isVisible : Bool
  altitude : ℚ
  azimuth : ℚ
  riseTime : Option String
  setTime : Option String
  transitTime : Option String
  magnitude : Option ℚ
  illumination : Option ℚ
  visibilityWindow : String
  bestViewingTime : String
  phaseDescription : Option String
  deriving DecidableEq

/-- `formatTime`: null stays null, otherwise the locale formatter runs. -/
def formatTime (env : Env) : Option JSDate → Option String
  | none => none
  | some d => some (env.fmtTime d)

/-- A JS template literal interpolating `formatTime(d)`: `null` prints as
the string "null". -/
def fmtOpt (env : Env) (d : Option JSDate) : String :=
  match formatTime env d with
  | none => "null"
  | some s => s

/-- `getMoonPhaseDescription`, line for line. -/
def getMoonPhaseDescription (illumination : ℚ) : String :=
  if illumination < 1 then "New Moon"
  else if illumination < 25 then "Waxing Crescent"
  else if illumination < 35 then "First Quarter"
  else if illumination < 65 then "Waxing Gibbous"
  else if illumination < 75 then "Full Moon"
  else if illumination < 85 then "Waning Gibbous"
  else if illumination < 99 then "Waning Crescent"
  else "Full Moon"

/-- Milliseconds between two instants converted to hours, as the source
computes `(b - a) / (1000 * 60 * 60)`. -/
def hoursFrom (a b : Int) : ℚ :=
  ((b - a : Int) : ℚ) / (1000 * 60 * 60)

/-- `getBestViewingTime`, line for line. The `!rise || !set` early return
precedes the Sun check, exactly as in the source. -/
def getBestViewingTime (env : Env) (body : Body) (rise set_ transit : Option JSDate)
    (now : JSDate) (altitude : ℚ) : String :=
  match rise, set_ with
  | some r, some s =>
    let riseTime := r.millis
    let setTime := s.millis
    let nowTime := now.millis
    if body = Body.Sun then
      "⚠️ NEVER view the Sun directly through a telescope without proper solar filters!"
    else if body = Body.Moon then
      if nowTime ≥ riseTime ∧ nowTime ≤ setTime then
        "Currently visible! Best viewing: " ++ fmtOpt env transit ++ " (when highest in sky)"
      else if nowTime < riseTime then
        "Will rise in " ++ env.toFixed1 (hoursFrom nowTime riseTime) ++ " hours at " ++ fmtOpt env rise
      else
        "Already set. Next rise: " ++ fmtOpt env rise ++ " tomorrow"
    else
      if (nowTime ≥ riseTime ∧ nowTime ≤ setTime) ∧ altitude > 0 then
        let hoursRemaining := hoursFrom nowTime setTime
        if hoursRemaining > 2 then
          "Currently visible! Observe within the next " ++ env.toFixed1 hoursRemaining ++
            " hours. Best: " ++ fmtOpt env transit
        else
          "Currently visible but setting soon (in " ++ env.toFixed1 hoursRemaining ++ " hours)"
      else if nowTime < riseTime then
        let hoursUntil := hoursFrom nowTime riseTime
        let riseHour := r.hour
        if riseHour ≥ 20 ∨ riseHour ≤ 4 then
          "Morning object: Rises at " ++ fmtOpt env rise ++ " (" ++ env.toFixed1 hoursUntil ++
            " hours from now). Best viewing: 1-2 hours after rise."
        else if riseHour ≥ 5 ∧ riseHour ≤ 12 then
          "Not visible tonight. Rises during daytime at " ++ fmtOpt env rise ++ "."
        else
          "Evening object: Rises at " ++ fmtOpt env rise ++ " (" ++ env.toFixed1 hoursUntil ++
            " hours from now). Best viewing: around " ++ fmtOpt env transit ++ "."
      else
        "Already set for today. Next visible: " ++ fmtOpt env rise ++ " tomorrow"
  | _, _ => "Not visible in the next 24 hours"

/-- `calculateVisibilityWindow`, line for line. -/
def calculateVisibilityWindow (env : Env) (rise set_ : Option JSDate) (now : JSDate) : String :=
  match rise, set_ with
  | some r, some s =>
    if now.millis < r.millis then
      "Rises in " ++ env.toFixed1 (hoursFrom now.millis r.millis) ++ " hours"
    else if now.millis > s.millis then
      "Already set today"
    else
      "Visible now, sets in " ++ env.toFixed1 (hoursFrom now.millis s.millis) ++ " hours"
  | _, _ => "Not visible today"

/-- The rise/set/transit try-block: the three searches run in order inside a
single `try`; a throw keeps whatever was assigned before it and leaves the
rest null. -/
def searchResults (o : AstroOracle) : Option JSDate × Option JSDate × Option JSDate :=
  match o.searchRise with
  | .error _ => (none, none, none)
  | .ok riseDate =>
    match o.searchSet with
    | .error _ => (riseDate, none, none)
    | .ok setDate =>
      match o.searchHourAngle with
      | .error _ => (riseDate, setDate, none)
      | .ok transitDate => (riseDate, setDate, transitDate)

/-- The magnitude/illumination try-block: a throw leaves all three null;
illumination percentage and phase description are set for the Moon only. -/
def illumResults (body : Body) (o : AstroOracle) : Option ℚ × Option ℚ × Option String :=
  match o.illum with
  | .error _ => (none, none, none)
  | .ok i =>
    if body = Body.Moon then
      let illumination := i.phase_fraction * 100
      (some i.mag, some illumination, some (getMoonPhaseDescription illumination))
    else
      (some i.mag, none, none)

/-- `getCelestialBodyInfo`: the per-body record, with both try/catch blocks
modelled by `searchResults` and `illumResults`. It is a total function:
errors of the searches and of `Illumination` are caught, never propagated. -/
def getCelestialBodyInfo (env : Env) (o : AstroOracle) (body : Body) (date : JSDate) :
    CelestialBodyInfo :=
  let equatorial := o.equator
  let horizon := o.horizon equatorial.ra equatorial.dec
  let isVisible := decide (horizon.altitude > 0)
  let rst := searchResults o
  let riseDate := rst.1
  let setDate := rst.2.1
  let transitDate := rst.2.2
  let mip := illumResults body o
  { name := body.name
    isVisible := isVisible
    altitude := horizon.altitude
    azimuth := horizon.azimuth
    riseTime := formatTime env riseDate
    setTime := formatTime env setDate
    transitTime := formatTime env transitDate
    magnitude := mip.1
    illumination := mip.2.1
    phaseDescription := mip.2.2
    visibilityWindow := calculateVisibilityWindow env riseDate setDate date
    bestViewingTime := getBestViewingTime env body riseDate setDate transitDate date
      horizon.altitude }

/-- The sort comparator of `execute` (returns −1, 1 or `b.altitude − a.altitude`). -/
def cmpBodies (a b : CelestialBodyInfo) : ℚ :=
  if a.isVisible && !b.isVisible then -1
  else if !a.isVisible && b.isVisible then 1
  else b.altitude - a.altitude

/-- `a` may precede `b` under the comparator: `cmpBodies a b ≤ 0`. -/
def leBodies (a b : CelestialBodyInfo) : Bool :=
  decide (cmpBodies a b ≤ 0)

/-- The `celestialBodies.sort(...)` call. -/
def sortBodies (l : List CelestialBodyInfo) : List CelestialBodyInfo :=
  l.mergeSort leBodies

/-- The `filter` of `execute`: visible bodies other than the Sun. -/
def currentlyVisibleOf (l : List CelestialBodyInfo) : List CelestialBodyInfo :=
  l.filter fun b => b.isVisible && b.name != "Sun"

/-- The aggregate summary string of `execute`, built from the sorted list. -/
def summaryOf (l : List CelestialBodyInfo) : String :=
  let currentlyVisible := currentlyVisibleOf l
  let visibleCount := currentlyVisible.length
  let visibleNames := String.intercalate ", " (currentlyVisible.map fun b => b.name)
  if visibleCount > 0 then
    "Currently " ++ toString visibleCount ++ " celestial bodies visible: " ++ visibleNames ++
      ". Check \x27bestViewingTime\x27 for optimal observation times."
  else
    "No major celestial bodies currently visible from this location. Check individual objects for their next rise times."

/-- `new Astronomy.Observer(lat, lon, elev)` and the `location` output object. -/
structure Observer where
  latitude : ℚ
  longitude : ℚ
  elevation : ℚ
  deriving DecidableEq

/-- The tool's input after zod validation: `elevation` and `time` are optional. -/
structure ToolContext where
  latitude : ℚ
  longitude : ℚ
  elevation : Option ℚ
  time : Option String

/-- The world `execute` runs in: the astronomy oracle for each observer,
instant and body, `new Date(string)`, `new Date()`, `toISOString`, and the
formatting environment. -/
structure World where
  astro : Observer → JSDate → Body → AstroOracle
  parseTime : String → JSDate
  nowDate : JSDate
  isoString : JSDate → String
  env : Env

/-- The tool's output object. -/
structure ToolResult where
  observationTime : String
  location : Observer
  celestialBodies : List CelestialBodyInfo
  summary : String

/-- The nine bodies of `execute`, in source order. -/
def bodiesList : List Body :=
  [.Sun, .Moon, .Mercury, .Venus, .Mars, .Jupiter, .Saturn, .Uranus, .Neptune]

/-- JS `x || 0` on a number: 0 is falsy, every other number is itself. -/
def jsOrZero (x : ℚ) : ℚ :=
  if x = 0 then 0 else x

/-- `new Astronomy.Observer(context.latitude, context.longitude,
context.elevation || 0)`, and likewise the `location` output object.
`context.elevation` arrives zod-defaulted to 0 (`Option.getD 0`) and is
then passed through the source's own `|| 0`. -/
def observerOf (context : ToolContext) : Observer :=
  ⟨context.latitude, context.longitude, jsOrZero (context.elevation.getD 0)⟩

/-- `context.time ? new Date(context.time) : new Date()`: the empty string
is falsy in JS, so a supplied `time` of `""` falls back to `new Date()`
exactly as omission does. -/
def observationDateOf (w : World) (context : ToolContext) : JSDate :=
  match context.time with
  | some t => if t = "" then w.nowDate else w.parseTime t
  | none => w.nowDate

/-- The unsorted per-body loop of `execute` over the nine bodies. -/
def rawBodiesOf (w : World) (context : ToolContext) : List CelestialBodyInfo :=
  bodiesList.map fun b =>
    getCelestialBodyInfo w.env
      (w.astro (observerOf context) (observationDateOf w context) b) b
      (observationDateOf w context)

/-- The tool's `execute`: build the observer, resolve the instant, compute
all nine bodies, sort, summarise and echo the request. -/
def execute (w : World) (context : ToolContext) : ToolResult :=
  let sorted := sortBodies (rawBodiesOf w context)
  { observationTime := w.isoString (observationDateOf w context)
    location := observerOf context
    celestialBodies := sorted
    summary := summaryOf sorted }

/-! The Telegram send step of `celestialTelegramWorkflow.ts`. -/

/-- The step's `inputData`. -/
structure StepInput where
  response : String
  chatId : Int

/-- The `fetch` body sent to the Telegram `sendMessage` endpoint. -/
structure TGRequest where
  chat_id : Int
  text : String
  parse_mode : String
  deriving DecidableEq

/-- The Telegram HTTP response: `ok` is `response.ok` (2xx), `messageId`
is `result.result?.message_id`, `bodyText` the stringified JSON body. -/
structure TGResponse where
  ok : Bool
  messageId : Option Int
  bodyText : String

/-- The step's success output. -/
structure SendOutput where
  sent : Bool
  messageId : Option Int
  deriving DecidableEq

/-- Outcome of one run of the step: the thrown-or-returned result together
with the list of HTTP requests actually issued. -/
structure SendOutcome where
  result : Except String SendOutput
  requests : List TGRequest

/-- JS falsiness of a `string | undefined` value: `!s` is true for
`undefined` and for the empty string. -/
def jsFalsyStr (s : Option String) : Bool :=
  match s with
  | none => true
  | some v => v == ""

/-- `sendTelegramReply.execute`: read `TELEGRAM_BOT_TOKEN` from the
environment; the guard is `if (!telegramBotToken)`, so an absent or
empty-string token throws before any HTTP request; otherwise POST to
`sendMessage` and throw exactly when the response is non-2xx. -/
def sendTelegramReply (telegramBotToken : Option String)
    (http : TGRequest → TGResponse) (inputData : StepInput) : SendOutcome :=
  if jsFalsyStr telegramBotToken then
    { result := Except.error "TELEGRAM_BOT_TOKEN environment variable is not set"
      requests := [] }
  else
    let req : TGRequest := ⟨inputData.chatId, inputData.response, "Markdown"⟩
    let response := http req
    if response.ok then
      { result := Except.ok ⟨true, response.messageId⟩, requests := [req] }
    else
      { result := Except.error ("Failed to send Telegram message: " ++ response.bodyText)
        requests := [req] }

/-! Concrete sample values used by counterexamples and witnesses. -/

/-- A concrete formatting environment. -/
def sampleEnv : Env :=
  ⟨fun _ => "12:00 AM", fun _ => "0.0"⟩

/-- The epoch instant. -/
def d0 : JSDate := ⟨0, 0⟩

/-- An instant one hour after `d0`. -/
def d1 : JSDate := ⟨3600000, 1⟩

/-- Oracle for a circumpolar body: neither rise nor set is found within the
2-day window (both searches return null without throwing), while the
transit search still succeeds. -/
def circumpolarOracle : AstroOracle where
  equator := ⟨0, 0⟩
  horizon := fun _ _ => ⟨10, 180⟩
  searchRise := .ok none
  searchSet := .ok none
  searchHourAngle := .ok (some d1)
  illum := .ok ⟨2, 1/2⟩

/-- Oracle for the Sun during polar night/day: the rise search finds
nothing within the window. -/
def polarSunOracle : AstroOracle where
  equator := ⟨0, 0⟩
  horizon := fun _ _ => ⟨-5, 0⟩
  searchRise := .ok none
  searchSet := .ok none
  searchHourAngle := .ok (some d1)
  illum := .ok ⟨-26, 1⟩

/-- Oracle for the Sun on an ordinary day: rise and set are both found. -/
def ordinarySunOracle : AstroOracle where
  equator := ⟨0, 0⟩
  horizon := fun _ _ => ⟨30, 90⟩
  searchRise := .ok (some d1)
  searchSet := .ok (some ⟨43200000, 12⟩)
  searchHourAngle := .ok (some ⟨21600000, 6⟩)
  illum := .ok ⟨-26, 1⟩

/-- Oracle whose every fallible call throws. -/
def failingOracle : AstroOracle where
  equator := ⟨0, 0⟩
  horizon := fun _ _ => ⟨42, 270⟩
  searchRise := .error ()
  searchSet := .error ()
  searchHourAngle := .error ()
  illum := .error ()

/-- A concrete world in which every body's fallible computation throws. -/
def failingWorld : World where
  astro := fun _ _ _ => failingOracle
  parseTime := fun _ => d0
  nowDate := d0
  isoString := fun _ => "1970-01-01T00:00:00.000Z"
  env := sampleEnv

/-- A concrete request. -/
def sampleContext : ToolContext :=
  { latitude := 25.6, longitude := 85.1, elevation := none, time := none }

/-- A concrete request supplying elevation and time. -/
def timedContext : ToolContext :=
  { latitude := 1, longitude := 2, elevation := some 100,
    time := some "2024-01-01T00:00:00Z" }

/-- A concrete world whose ISO renderer distinguishes instants, whose
clock reads `d0` and whose date parser answers `d1` for every string. -/
def falsyProbeWorld : World where
  astro := fun _ _ _ => failingOracle
  parseTime := fun _ => d1
  nowDate := d0
  isoString := fun d => toString d.millis
  env := sampleEnv

/-- A concrete request whose supplied time string is empty. -/
def emptyTimeContext : ToolContext :=
  { latitude := 0, longitude := 0, elevation := none, time := some "" }

/-- A concrete HTTP layer always answering 2xx. -/
def sampleHttpOk : TGRequest → TGResponse :=
  fun _ => ⟨true, some 7, "ok"⟩

/-- A concrete Telegram step input. -/
def sampleInput : StepInput :=
  ⟨"hello", 42⟩

/-- A visible Sun record, as fed to the summary. -/
def sunInfoSample : CelestialBodyInfo :=
  { name := "Sun", isVisible := true, altitude := 30, azimuth := 90, riseTime := none,
    setTime := none, transitTime := none, magnitude := some (-26), illumination := none,
    visibilityWindow := "w", bestViewingTime := "b", phaseDescription := none }

/-- A visible Moon record, as fed to the summary. -/
def moonInfoSample : CelestialBodyInfo :=
  { name := "Moon", isVisible := true, altitude := 45, azimuth := 120, riseTime := none,
    setTime := none, transitTime := none, magnitude := some (-12), illumination := some 70,
    visibilityWindow := "w", bestViewingTime := "b", phaseDescription := some "Full Moon" }

/-! Helper lemmas shared by several claims. -/

/-- The record's name field is the body's enum name. -/
theorem getCelestialBodyInfo_name (env : Env) (o : AstroOracle) (body : Body) (date : JSDate) :
    (getCelestialBodyInfo env o body date).name = body.name := rfl

/-- The comparator order is transitive. -/
theorem leBodies_trans (a b c : CelestialBodyInfo) (hab : leBodies a b = true)
    (hbc : leBodies b c = true) : leBodies a c = true := by
  simp only [leBodies, decide_eq_true_eq] at hab hbc ⊢
  cases ha : a.isVisible <;> cases hb : b.isVisible <;> cases hc : c.isVisible <;>
    simp [cmpBodies, ha, hb, hc] at hab hbc ⊢ <;> linarith

/-- The comparator order is total. -/
theorem leBodies_total (a b : CelestialBodyInfo) : (leBodies a b || leBodies b a) = true := by
  simp only [leBodies, Bool.or_eq_true, decide_eq_true_eq]
  cases ha : a.isVisible <;> cases hb : b.isVisible <;>
    simp [cmpBodies, ha, hb, sub_nonpos] <;> exact le_total _ _

/-- What preceding under the comparator means for the two claimed fields. -/
theorem leBodies_fields (a b : CelestialBodyInfo) (h : leBodies a b = true) :
    (b.isVisible = true → a.isVisible = true) ∧
      (a.isVisible = b.isVisible → b.altitude ≤ a.altitude) := by
  simp only [leBodies, decide_eq_true_eq] at h
  cases ha : a.isVisible <;> cases hb : b.isVisible <;>
    simp [cmpBodies, ha, hb, sub_nonpos] at h ⊢ <;> first | exact h | linarith

/-- Every sorted list is pairwise ordered by visibility then altitude. -/
theorem sortBodies_pairwise (l : List CelestialBodyInfo) :
    (sortBodies l).Pairwise fun a b =>
      (b.isVisible = true → a.isVisible = true) ∧
        (a.isVisible = b.isVisible → b.altitude ≤ a.altitude) :=
  (List.sorted_mergeSort leBodies_trans leBodies_total l).imp fun h => leBodies_fields _ _ h

/-! Claim theorems. -/

/-- C1: the moon-phase label is a deterministic, total function of the
illumination percentage over [0,100], computed by the fixed thresholds:
below 1 "New Moon", below 25 "Waxing Crescent", below 35 "First Quarter",
below 65 "Waxing Gibbous", below 75 "Full Moon", below 85 "Waning Gibbous",
below 99 "Waning Crescent", and at or above 99 "Full Moon"; in particular
"Full Moon" is returned both on the 65-75 band and on the 99-100 band. -/
theorem moonPhase_total_thresholds (x : ℚ) (_h0 : 0 ≤ x) (_h100 : x ≤ 100) :
    (x < 1 → getMoonPhaseDescription x = "New Moon") ∧
    (1 ≤ x → x < 25 → getMoonPhaseDescription x = "Waxing Crescent") ∧
    (25 ≤ x → x < 35 → getMoonPhaseDescription x = "First Quarter") ∧
    (35 ≤ x → x < 65 → getMoonPhaseDescription x = "Waxing Gibbous") ∧
    (65 ≤ x → x < 75 → getMoonPhaseDescription x = "Full Moon") ∧
    (75 ≤ x → x < 85 → getMoonPhaseDescription x = "Waning Gibbous") ∧
    (85 ≤ x → x < 99 → getMoonPhaseDescription x = "Waning Crescent") ∧
    (99 ≤ x → getMoonPhaseDescription x = "Full Moon") := by
  unfold getMoonPhaseDescription
  refine ⟨?_, ?_, ?_, ?_, ?_, ?_, ?_, ?_⟩ <;> intros <;> split_ifs <;>
    first | rfl | linarith

/-- Witness for C1 at illumination 70, inside both the [0,100] range and
the 65-75 band. -/
theorem moonPhase_total_thresholds_witness :
    (0 : ℚ) ≤ 70 ∧ (70 : ℚ) ≤ 100 ∧ (65 : ℚ) ≤ 70 ∧ (70 : ℚ) < 75 ∧
      getMoonPhaseDescription 70 = "Full Moon" :=
  ⟨by norm_num, by norm_num, by norm_num, by norm_num,
    (moonPhase_total_thresholds 70 (by norm_num) (by norm_num)).2.2.2.2.1
      (by norm_num) (by norm_num)⟩

/-- C5: for every environment, oracle answer, body and instant, the
record's isVisible field is true exactly when its computed horizontal
altitude is strictly positive. -/
theorem isVisible_iff_altitude_pos (env : Env) (o : AstroOracle) (body : Body) (date : JSDate) :
    (getCelestialBodyInfo env o body date).isVisible = true ↔
      0 < (getCelestialBodyInfo env o body date).altitude := by
  simp [getCelestialBodyInfo]

/-- C3: in every result array of the tool, all visible entries precede all
invisible ones, and altitude is non-increasing within each group: for every
earlier entry a and later entry b, b visible forces a visible, and equal
visibility forces b.altitude ≤ a.altitude. -/
theorem execute_sorted (w : World) (context : ToolContext) :
    ((execute w context).celestialBodies).Pairwise fun a b =>
      (b.isVisible = true → a.isVisible = true) ∧
        (a.isVisible = b.isVisible → b.altitude ≤ a.altitude) :=
  sortBodies_pairwise (rawBodiesOf w context)

/-- C9: the result's celestialBodies names are a permutation of the nine
fixed body names: exactly nine records, one per body, none omitted or
duplicated, whatever the oracle answers (including failing ones). -/
theorem execute_contains_exactly_nine (w : World) (context : ToolContext) :
    ((execute w context).celestialBodies.map fun b => b.name).Perm
      ["Sun", "Moon", "Mercury", "Venus", "Mars", "Jupiter", "Saturn", "Uranus", "Neptune"] := by
  have hperm := (List.mergeSort_perm (rawBodiesOf w context) leBodies).map
    fun b : CelestialBodyInfo => b.name
  have hnames : ((rawBodiesOf w context).map fun b => b.name) =
      ["Sun", "Moon", "Mercury", "Venus", "Mars", "Jupiter", "Saturn", "Uranus", "Neptune"] := by
    simp [rawBodiesOf, bodiesList, getCelestialBodyInfo_name, Body.name]
  have : ((execute w context).celestialBodies.map fun b => b.name) =
      ((rawBodiesOf w context).mergeSort leBodies).map fun b => b.name := rfl
  rw [this, ← hnames]
  exact hperm

/-- C2 counterexample: a circumpolar body whose rise and set searches both
come back empty within the window still gets a non-null transitTime,
because the transit search succeeds independently; the claim's "transitTime
is null" fails at this concrete input. -/
theorem riseSet_not_found_counterexample :
    (searchResults circumpolarOracle).1 = none ∧
    (searchResults circumpolarOracle).2.1 = none ∧
    (getCelestialBodyInfo sampleEnv circumpolarOracle Body.Mars d0).transitTime =
      some "12:00 AM" :=
  ⟨rfl, rfl, rfl⟩

/-- C2 (amended): when neither a rise nor a set is found within the search
window, the per-body computation still returns (it never throws — it is a
total function), riseTime and setTime are null, visibilityWindow is
"Not visible today" and bestViewingTime is "Not visible in the next 24
hours"; transitTime however follows its own search and may be non-null. -/
theorem riseSet_not_found_fields (env : Env) (o : AstroOracle) (body : Body) (date : JSDate)
    (hrise : (searchResults o).1 = none) (hset : (searchResults o).2.1 = none) :
    (getCelestialBodyInfo env o body date).riseTime = none ∧
    (getCelestialBodyInfo env o body date).setTime = none ∧
    (getCelestialBodyInfo env o body date).visibilityWindow = "Not visible today" ∧
    (getCelestialBodyInfo env o body date).bestViewingTime =
      "Not visible in the next 24 hours" := by
  simp [getCelestialBodyInfo, hrise, hset, formatTime, calculateVisibilityWindow,
    getBestViewingTime]

/-- Witness for C2 at the circumpolar oracle. -/
theorem riseSet_not_found_fields_witness :
    (getCelestialBodyInfo sampleEnv circumpolarOracle Body.Mars d0).riseTime = none ∧
    (getCelestialBodyInfo sampleEnv circumpolarOracle Body.Mars d0).setTime = none ∧
    (getCelestialBodyInfo sampleEnv circumpolarOracle Body.Mars d0).visibilityWindow =
      "Not visible today" ∧
    (getCelestialBodyInfo sampleEnv circumpolarOracle Body.Mars d0).bestViewingTime =
      "Not visible in the next 24 hours" :=
  riseSet_not_found_fields sampleEnv circumpolarOracle Body.Mars d0 rfl rfl

/-- C7 counterexample: during polar night/day the Sun's rise search finds
nothing, and the early `!rise || !set` return fires before the Sun check,
so bestViewingTime is "Not visible in the next 24 hours", not the safety
warning; the claim's "for every observer location and instant" fails here. -/
theorem sun_warning_counterexample :
    (getCelestialBodyInfo sampleEnv polarSunOracle Body.Sun d0).bestViewingTime =
      "Not visible in the next 24 hours" ∧
    (getCelestialBodyInfo sampleEnv polarSunOracle Body.Sun d0).bestViewingTime ≠
      "⚠️ NEVER view the Sun directly through a telescope without proper solar filters!" := by
  refine ⟨rfl, ?_⟩
  decide

/-- C7 (amended): for the Sun, whenever both a rise and a set were found
within the search window, bestViewingTime is the hard-coded safety warning;
when either is missing it is "Not visible in the next 24 hours" instead. -/
theorem sun_warning_when_rise_set_found (env : Env) (o : AstroOracle) (date : JSDate) :
    ((searchResults o).1 ≠ none → (searchResults o).2.1 ≠ none →
      (getCelestialBodyInfo env o Body.Sun date).bestViewingTime =
        "⚠️ NEVER view the Sun directly through a telescope without proper solar filters!") ∧
    ((searchResults o).1 = none ∨ (searchResults o).2.1 = none →
      (getCelestialBodyInfo env o Body.Sun date).bestViewingTime =
        "Not visible in the next 24 hours") := by
  constructor
  · intro hrise hset
    obtain ⟨r, hr2⟩ := Option.ne_none_iff_exists'.mp hrise
    obtain ⟨s, hs2⟩ := Option.ne_none_iff_exists'.mp hset
    simp [getCelestialBodyInfo, hr2, hs2, getBestViewingTime]
  · rintro (h | h) <;> simp [getCelestialBodyInfo, h, getBestViewingTime]

/-- Witness for C7: an ordinary day (rise and set found) gives the warning,
a polar day (rise missing) gives the not-visible string. -/
theorem sun_warning_when_rise_set_found_witness :
    (getCelestialBodyInfo sampleEnv ordinarySunOracle Body.Sun d0).bestViewingTime =
      "⚠️ NEVER view the Sun directly through a telescope without proper solar filters!" ∧
    (getCelestialBodyInfo sampleEnv polarSunOracle Body.Sun d0).bestViewingTime =
      "Not visible in the next 24 hours" :=
  ⟨(sun_warning_when_rise_set_found sampleEnv ordinarySunOracle d0).1
      (by decide) (by decide),
    (sun_warning_when_rise_set_found sampleEnv polarSunOracle d0).2 (Or.inl rfl)⟩

/-- C4: every error of the rise/set/transit searches or of the
magnitude/illumination call is caught (the per-body computation is a total
function) and the fields whose computation failed are left null, and the
overall call still returns a record for all nine bodies whatever the
oracles do. -/
theorem perBody_errors_recovered (env : Env) (o : AstroOracle) (body : Body) (date : JSDate)
    (w : World) (context : ToolContext) :
    (o.searchRise = Except.error () →
      (getCelestialBodyInfo env o body date).riseTime = none ∧
      (getCelestialBodyInfo env o body date).setTime = none ∧
      (getCelestialBodyInfo env o body date).transitTime = none) ∧
    (o.searchSet = Except.error () →
      (getCelestialBodyInfo env o body date).setTime = none ∧
      (getCelestialBodyInfo env o body date).transitTime = none) ∧
    (o.searchHourAngle = Except.error () →
      (getCelestialBodyInfo env o body date).transitTime = none) ∧
    (o.illum = Except.error () →
      (getCelestialBodyInfo env o body date).magnitude = none ∧
      (getCelestialBodyInfo env o body date).illumination = none ∧
      (getCelestialBodyInfo env o body date).phaseDescription = none) ∧
    (execute w context).celestialBodies.length = 9 := by
  refine ⟨?_, ?_, ?_, ?_, ?_⟩
  · intro h
    simp [getCelestialBodyInfo, searchResults, h, formatTime]
  · intro h
    rcases hrise : o.searchRise with e | r <;>
      simp [getCelestialBodyInfo, searchResults, h, hrise, formatTime]
  · intro h
    rcases hrise : o.searchRise with e | r <;>
      rcases hset : o.searchSet with e2 | s <;>
      simp [getCelestialBodyInfo, searchResults, h, hrise, hset, formatTime]
  · intro h
    simp [getCelestialBodyInfo, illumResults, h]
  · show ((rawBodiesOf w context).mergeSort leBodies).length = 9
    rw [List.length_mergeSort]
    simp [rawBodiesOf, bodiesList]

/-- Witness for C4: the all-failing oracle yields all-null fallible fields
and the all-failing world still yields nine records. -/
theorem perBody_errors_recovered_witness :
    (getCelestialBodyInfo sampleEnv failingOracle Body.Jupiter d0).riseTime = none ∧
    (getCelestialBodyInfo sampleEnv failingOracle Body.Jupiter d0).setTime = none ∧
    (getCelestialBodyInfo sampleEnv failingOracle Body.Jupiter d0).transitTime = none ∧
    (getCelestialBodyInfo sampleEnv failingOracle Body.Jupiter d0).magnitude = none ∧
    (getCelestialBodyInfo sampleEnv failingOracle Body.Jupiter d0).illumination = none ∧
    (getCelestialBodyInfo sampleEnv failingOracle Body.Jupiter d0).phaseDescription = none ∧
    (execute failingWorld sampleContext).celestialBodies.length = 9 := by
  have h := perBody_errors_recovered sampleEnv failingOracle Body.Jupiter d0
    failingWorld sampleContext
  exact ⟨(h.1 rfl).1, (h.1 rfl).2.1, (h.1 rfl).2.2, (h.2.2.2.1 rfl).1,
    (h.2.2.2.1 rfl).2.1, (h.2.2.2.1 rfl).2.2, h.2.2.2.2⟩

/-- C6: the summary is built from exactly the visible bodies other than the
Sun — it counts them and names them; when there is none it is the fixed
no-bodies-visible message; "Sun" is never among the names it lists, even
when the Sun's record is visible; and the tool's summary is this function
of its own (sorted) result array. -/
theorem summary_excludes_sun (l : List CelestialBodyInfo) (w : World) (context : ToolContext) :
    (currentlyVisibleOf l = [] →
      summaryOf l =
        "No major celestial bodies currently visible from this location. Check individual objects for their next rise times.") ∧
    (currentlyVisibleOf l ≠ [] →
      summaryOf l =
        "Currently " ++ toString (currentlyVisibleOf l).length ++
          " celestial bodies visible: " ++
          String.intercalate ", " ((currentlyVisibleOf l).map fun b => b.name) ++
          ". Check \x27bestViewingTime\x27 for optimal observation times.") ∧
    (∀ b ∈ currentlyVisibleOf l, b.isVisible = true ∧ b.name ≠ "Sun") ∧
    (∀ b ∈ l, b.isVisible = true → b.name ≠ "Sun" → b ∈ currentlyVisibleOf l) ∧
    "Sun" ∉ (currentlyVisibleOf l).map (fun b => b.name) ∧
    (execute w context).summary = summaryOf (execute w context).celestialBodies := by
  refine ⟨?_, ?_, ?_, ?_, ?_, rfl⟩
  · intro h
    simp [summaryOf, h]
  · intro h
    have hpos : 0 < (currentlyVisibleOf l).length := List.length_pos.mpr h
    simp only [summaryOf]
    rw [if_pos hpos]
  · intro b hb
    simp [currentlyVisibleOf, List.mem_filter] at hb
    exact ⟨hb.2.1, hb.2.2⟩
  · intro b hb h1 h2
    simp [currentlyVisibleOf, List.mem_filter]
    exact ⟨hb, h1, h2⟩
  · intro hmem
    simp [currentlyVisibleOf, List.mem_map, List.mem_filter] at hmem
    obtain ⟨b, ⟨_, _, hname⟩, hbn⟩ := hmem
    exact hname hbn

/-- Witness for C6: with a visible Sun and a visible Moon, the summary
counts and names only the Moon. -/
theorem summary_excludes_sun_witness :
    currentlyVisibleOf [sunInfoSample, moonInfoSample] ≠ [] ∧
    summaryOf [sunInfoSample, moonInfoSample] =
      "Currently 1 celestial bodies visible: Moon. Check \x27bestViewingTime\x27 for optimal observation times." ∧
    moonInfoSample.isVisible = true ∧ moonInfoSample.name ≠ "Sun" := by
  have h := summary_excludes_sun [sunInfoSample, moonInfoSample] failingWorld sampleContext
  refine ⟨by decide, ?_, h.2.2.1 moonInfoSample (by decide)⟩
  rw [h.2.1 (by decide)]
  rfl

/-- C8 counterexample: the guard is `if (!telegramBotToken)`, and the empty
string is falsy in JS, so a token that is present but empty throws the
configuration error and issues no HTTP request — even though the HTTP layer
would have answered 2xx; the claim's "with the token present it performs
the send" fails at this concrete input. -/
theorem sendTelegramReply_empty_token_counterexample :
    (sendTelegramReply (some "") sampleHttpOk sampleInput).result =
      Except.error "TELEGRAM_BOT_TOKEN environment variable is not set" ∧
    (sendTelegramReply (some "") sampleHttpOk sampleInput).requests = [] :=
  ⟨rfl, rfl⟩

/-- C8 (amended): the Telegram send step throws when the bot-token secret
is absent from the environment or present but empty (both are falsy under
the source's `if (!telegramBotToken)` guard), issuing no HTTP request at
all; with a non-empty token present it issues exactly the sendMessage
request and throws exactly when the Telegram response is non-2xx. -/
theorem sendTelegramReply_token_gate (http : TGRequest → TGResponse) (inputData : StepInput) :
    (∀ token : Option String, jsFalsyStr token = true →
      (sendTelegramReply token http inputData).result =
        Except.error "TELEGRAM_BOT_TOKEN environment variable is not set" ∧
      (sendTelegramReply token http inputData).requests = []) ∧
    ∀ token : String, token ≠ "" →
      (sendTelegramReply (some token) http inputData).requests =
        [⟨inputData.chatId, inputData.response, "Markdown"⟩] ∧
      ((∃ e, (sendTelegramReply (some token) http inputData).result = Except.error e) ↔
        (http ⟨inputData.chatId, inputData.response, "Markdown"⟩).ok = false) := by
  constructor
  · intro token h
    simp [sendTelegramReply, h]
  · intro token hne
    have hfalsy : jsFalsyStr (some token) = false := by
      simp [jsFalsyStr, hne]
    cases hok : (http ⟨inputData.chatId, inputData.response, "Markdown"⟩).ok <;>
      simp [sendTelegramReply, hfalsy, hok]

/-- Witness for C8: the absent token and the empty token both throw with
no request issued, while a non-empty token issues the request. -/
theorem sendTelegramReply_token_gate_witness :
    (sendTelegramReply none sampleHttpOk sampleInput).requests = [] ∧
    (sendTelegramReply (some "") sampleHttpOk sampleInput).requests = [] ∧
    (sendTelegramReply (some "tok") sampleHttpOk sampleInput).requests =
      [⟨(42 : Int), "hello", "Markdown"⟩] := by
  have h := sendTelegramReply_token_gate sampleHttpOk sampleInput
  exact ⟨(h.1 none rfl).2, (h.1 (some "") rfl).2, (h.2 "tok" (by decide)).1⟩

/-- C10 counterexample: the source resolves the instant with
`context.time ? new Date(context.time) : new Date()`, and the empty string
is falsy, so a supplied time of "" yields the ISO form of the current
instant, not of the parsed supplied string; the claim's "the supplied time
string when given" fails at this concrete input. -/
theorem observationTime_empty_string_counterexample :
    emptyTimeContext.time = some "" ∧
    (execute falsyProbeWorld emptyTimeContext).observationTime =
      falsyProbeWorld.isoString falsyProbeWorld.nowDate ∧
    (execute falsyProbeWorld emptyTimeContext).observationTime ≠
      falsyProbeWorld.isoString (falsyProbeWorld.parseTime "") := by
  refine ⟨rfl, rfl, ?_⟩
  decide

/-- C10 (amended): the result echoes the request: location is exactly the
input latitude and longitude, elevation is the input elevation (0 when
omitted), and observationTime is the ISO rendering of the requested
instant — the parsed supplied time string when a non-empty one is given;
an empty time string is falsy and falls back to the current instant
exactly as omission does. The embedding is pure, so the input context is
not modified. -/
theorem execute_echoes_request (w : World) (context : ToolContext) :
    (execute w context).location.latitude = context.latitude ∧
    (execute w context).location.longitude = context.longitude ∧
    (execute w context).location.elevation = context.elevation.getD 0 ∧
    (∀ t, context.time = some t → t ≠ "" →
      (execute w context).observationTime = w.isoString (w.parseTime t)) ∧
    (context.time = some "" →
      (execute w context).observationTime = w.isoString w.nowDate) ∧
    (context.time = none →
      (execute w context).observationTime = w.isoString w.nowDate) := by
  refine ⟨rfl, rfl, ?_, ?_, ?_, ?_⟩
  · show jsOrZero (context.elevation.getD 0) = context.elevation.getD 0
    unfold jsOrZero
    split <;> simp_all
  · intro t ht hne
    show w.isoString (observationDateOf w context) = _
    simp [observationDateOf, ht, hne]
  · intro ht
    show w.isoString (observationDateOf w context) = _
    simp [observationDateOf, ht]
  · intro ht
    show w.isoString (observationDateOf w context) = _
    simp [observationDateOf, ht]

/-- Witness for C10: a request with elevation 100 and a non-empty time
string echoes the parsed instant, and a request with an empty time string
falls back to the current instant. -/
theorem execute_echoes_request_witness :
    (execute failingWorld timedContext).location.latitude = 1 ∧
    (execute failingWorld timedContext).location.elevation = 100 ∧
    (execute failingWorld timedContext).observationTime = "1970-01-01T00:00:00.000Z" ∧
    (execute falsyProbeWorld emptyTimeContext).observationTime = "0" := by
  have h := execute_echoes_request failingWorld timedContext
  have h2 := execute_echoes_request falsyProbeWorld emptyTimeContext
  exact ⟨h.1, h.2.2.1, h.2.2.2.1 "2024-01-01T00:00:00Z" rfl (by decide),
    h2.2.2.2.2.1 rfl⟩

end SkyWhisper
